import Mathlib

/-!
# Verification of the AzureKubeLogger telemetry worker

Shallow embedding of the synthetic-telemetry engine (`src/telemetry_worker.py`,
`src/config.py`, and the five simulator modules under `src/simulators/`) in
Lean 4, together with theorems settling the frozen claims about it.

Modelling conventions:
* Python floats are modelled as `ℚ` (exact rationals); the claims under study
  concern ranges, counts and equalities at the level of real arithmetic, not
  bit-level floating point.
* Each call to a primitive of Python's `random` module is modelled by the value
  it returned: either as a field of an explicit draw-record or as one position
  of a stream `ℕ → ℚ` consumed left to right.  Range facts guaranteed by the
  primitive (`uniform a b ∈ [a,b]`, `randint a b` an integer of `[a,b]`,
  `random() ∈ [0,1)`) appear as hypotheses where a theorem needs them.
* A Python `dict` of metrics is an association list `List (String × ℚ)` built
  in insertion order; the metric names produced never collide, so lookup of
  the first matching key agrees with the dictionary.
* Exceptions are modelled by `Except`-style sum results; wall-clock readings
  (`time.time()`) are inputs.
-/

/-- A metric batch: the flat `metric name → value` mapping one provider
returns from `simulate_operations` (insertion-ordered association list). -/
abbrev Batch := List (String × ℚ)

/-- Python `dict.get(k, d)` over an insertion-ordered association list. -/
def getD (m : Batch) (k : String) (d : ℚ) : ℚ :=
  ((m.find? (fun e => e.1 == k)).map (fun e => e.2)).getD d

namespace Config

/-- An environment: the `os.getenv` mapping, as an association list. -/
abbrev Env := List (String × String)

/-- `os.getenv(key, default)` from `src/config.py`. -/
def getenvD (env : Env) (k d : String) : String :=
  ((env.find? (fun e => e.1 == k)).map (fun e => e.2)).getD d

/-- Python `str.lower()` on one ASCII character. -/
def lowerChar (c : Char) : Char :=
  if 'A' ≤ c ∧ c ≤ 'Z' then Char.ofNat (c.toNat + 32) else c

/-- Python `str.lower()` as `Config.__init__` applies it to flag values. -/
def strLower (s : String) : String := ⟨s.data.map lowerChar⟩

/-- The value of a digit string, `none` on an empty or non-digit string. -/
def digitsVal : List Char → Option ℕ
  | [] => none
  | l => l.foldl (fun acc c =>
      match acc with
      | none => none
      | some n => if c.isDigit then some (n * 10 + (c.toNat - 48)) else none)
      (some 0)

/-- Python `int(str)` as `Config.__init__` uses it on `MONITORING_INTERVAL`:
an optional sign followed by decimal digits; anything else raises
(modelled by `none`). -/
def parseIntStr (s : String) : Option ℤ :=
  match s.data with
  | '-' :: rest => (digitsVal rest).map (fun n => -(n : ℤ))
  | l => (digitsVal l).map (fun n => (n : ℤ))

end Config

/-- The fields of `Config.__init__` (`src/config.py`, lines 15-71) that the
worker core reads.  `NEW_RELIC_ENABLED = bool(license key)`; the five
`ENABLE_*` simulation flags are parsed from the environment with default
`"true"`; `MONITORING_INTERVAL = int(os.getenv(..., "30"))`. -/
structure Config where
  NEW_RELIC_ENABLED : Bool
  MONITORING_INTERVAL : ℤ
  ENABLE_K8S_SIMULATION : Bool
  ENABLE_DB_SIMULATION : Bool
  ENABLE_STORAGE_SIMULATION : Bool
  ENABLE_NETWORK_SIMULATION : Bool
  ENABLE_SYSTEM_MONITORING : Bool
  deriving DecidableEq

namespace Config

/-- One `ENABLE_*` flag: `os.getenv(name, "true").lower() == "true"`
(`src/config.py`, lines 30-44). -/
def parseFlag (env : Env) (name : String) : Bool :=
  strLower (getenvD env name "true") == "true"

/-- `Config.__init__` (`src/config.py`): builds the configuration from the
environment.  `int(...)` on a malformed `MONITORING_INTERVAL` raises in
Python, modelled by `none`. -/
def mkConfig (env : Env) : Option Config :=
  (parseIntStr (getenvD env "MONITORING_INTERVAL" "30")).map (fun interval =>
    { NEW_RELIC_ENABLED := !(getenvD env "NEW_RELIC_LICENSE_KEY" "").isEmpty
      MONITORING_INTERVAL := interval
      ENABLE_K8S_SIMULATION := parseFlag env "ENABLE_K8S_SIMULATION"
      ENABLE_DB_SIMULATION := parseFlag env "ENABLE_DB_SIMULATION"
      ENABLE_STORAGE_SIMULATION := parseFlag env "ENABLE_STORAGE_SIMULATION"
      ENABLE_NETWORK_SIMULATION := parseFlag env "ENABLE_NETWORK_SIMULATION"
      ENABLE_SYSTEM_MONITORING := parseFlag env "ENABLE_SYSTEM_MONITORING" })

end Config

namespace TelemetryWorker

/-- A Python exception surfaced by a provider call: its type name
(`type(e).__name__`) and message (`str(e)`). -/
structure Exn where
  ty : String
  msg : String
  deriving DecidableEq

/-- Outcome of one provider call inside `run_simulation_cycle`: either the
returned metric batch or a raised exception. -/
inductive PRes where
  | ok (b : Batch)
  | exn (e : Exn)
  deriving DecidableEq

/-- One observable emission of `run_simulation_cycle`
(`src/telemetry_worker.py`, lines 100-158): a `send_metric_to_newrelic` call,
the structured `telemetry_cycle` log event, the `TelemetryCycle` summary
event (its wall-clock `duration_ms` is not modelled), or a `TelemetryError`
event. -/
inductive Emitted where
  | metric (name : String) (v : ℚ)
  | cycleLog (data : List (String × Batch))
  | telemetryCycle (metricsCollected : ℕ)
  | telemetryError (ty msg : String)
  deriving DecidableEq

/-- The `send_metric_to_newrelic` calls made for one provider's batch under
its namespace prefix, e.g. `k8s.<metric_name>`. -/
def mets (prefixName : String) (b : Batch) : List Emitted :=
  b.map (fun m => .metric (prefixName ++ "." ++ m.1) m.2)

/-- `TelemetryWorker.run_simulation_cycle` (`src/telemetry_worker.py`, lines
100-158).  The five provider calls (k8s, database, storage, network, system)
run sequentially inside a single `try:` block; the first raised exception
jumps to the shared `except Exception` handler, which emits one
`TelemetryError{error_type, error_message}` event and returns.  On full
success the structured `telemetry_cycle` log event and the `TelemetryCycle`
summary event follow the metric emissions.  The method reads nothing from
`self.config`, so the `cfg` argument is unused, exactly as in the source. -/
def run_simulation_cycle (cfg : Config) (k8s db storage network system : PRes) :
    List Emitted :=
  match k8s with
  | .exn e => [.telemetryError e.ty e.msg]
  | .ok kb =>
    mets "k8s" kb ++
      match db with
      | .exn e => [.telemetryError e.ty e.msg]
      | .ok dbb =>
        mets "database" dbb ++
          match storage with
          | .exn e => [.telemetryError e.ty e.msg]
          | .ok sb =>
            mets "storage" sb ++
              match network with
              | .exn e => [.telemetryError e.ty e.msg]
              | .ok nb =>
                mets "network" nb ++
                  match system with
                  | .exn e => [.telemetryError e.ty e.msg]
                  | .ok yb =>
                    mets "system" yb ++
                      [.cycleLog [("kubernetes", kb), ("database", dbb),
                                  ("storage", sb), ("network", nb),
                                  ("system", yb)],
                       .telemetryCycle (kb.length + dbb.length + sb.length +
                                        nb.length + yb.length)]

/-- One scheduler pass over a list of per-cycle provider outcomes: the run
loop (`src/telemetry_worker.py`, lines 160-188) calls `run_simulation_cycle`
once per iteration; emissions concatenate in order. -/
def runCycles (cfg : Config) :
    List (PRes × PRes × PRes × PRes × PRes) → List Emitted
  | [] => []
  | c :: rest =>
      run_simulation_cycle cfg c.1 c.2.1 c.2.2.1 c.2.2.2.1 c.2.2.2.2 ++
        runCycles cfg rest

/-- The first exception raised among the five sequential provider calls, if
any: this is the exception the single `except` handler observes. -/
def firstFailure : PRes → PRes → PRes → PRes → PRes → Option Exn
  | .exn e, _, _, _, _ => some e
  | .ok _, .exn e, _, _, _ => some e
  | .ok _, .ok _, .exn e, _, _ => some e
  | .ok _, .ok _, .ok _, .exn e, _ => some e
  | .ok _, .ok _, .ok _, .ok _, .exn e => some e
  | .ok _, .ok _, .ok _, .ok _, .ok _ => none

/-- The `TelemetryError` events among a cycle's emissions, with their
`error_type` and `error_message` attributes. -/
def errorEvents (l : List Emitted) : List (String × String) :=
  l.filterMap (fun x =>
    match x with
    | .telemetryError t m => some (t, m)
    | _ => none)

end TelemetryWorker

namespace KubernetesSimulator

/-- One entry of the pod-state table `self.pod_states`
(`src/simulators/kubernetes_simulator.py`).  The lifecycle state is the
string the source stores (`"Pending"`, `"Running"`, `"Failed"`); `created_at`
is an abstract timestamp. -/
structure PodInfo where
  namespc : String
  state : String
  restart_count : ℕ
  cpu_usage : ℚ
  memory_usage : ℚ
  created_at : ℕ
  deriving DecidableEq

/-- The pod-state table: `pod name → PodInfo`, in insertion order. -/
abbrev PodTable := List (String × PodInfo)

/-- Python `dict[k] = v`: replace the binding in place if the key is present,
otherwise append it. -/
def insertPod (k : String) (v : PodInfo) : PodTable → PodTable
  | [] => [(k, v)]
  | e :: rest => if e.1 == k then (k, v) :: rest else e :: insertPod k v rest

/-- The lifecycle state stored for pod `k`, if the pod exists. -/
def stateOf (t : PodTable) (k : String) : Option String :=
  ((t.find? (fun e => e.1 == k)).map (fun e => e.2.state))

/-- The random draws and clock readings one `simulate_operations` call on the
Kubernetes simulator consumes, by the value each returned.  Per-pod draws are
indexed by pod name (the loop draws once per running pod). -/
structure K8sDraws where
  createDraw : ℚ            -- `random.random()` against the 10% creation gate
  newPodTime : ℕ            -- `int(time.time())` used in the new pod's name
  schedTimeDraw : ℚ         -- `random.uniform(1.5, 8.0)`
  nsChoice : ℕ              -- `random.choice` over the 4 namespace keys
  nowTime : ℕ               -- `datetime.utcnow()` for `created_at`
  failDraw : String → ℚ     -- per-pod `random.random()` against the 2% gate
  restartDraw : String → ℚ  -- per-pod `random.random()` against the 80% gate
  cpuDraw : String → ℚ      -- per-pod `random.uniform(-5, 15)`
  memDraw : String → ℚ      -- per-pod `random.uniform(-20, 50)`

/-- The namespace keys of `self.namespace_stats`, in insertion order. -/
def namespaceKeys : List String :=
  ["default", "kube-system", "monitoring", "ingress"]

/-- `simulate_pod_scheduling` (`src/simulators/kubernetes_simulator.py`,
lines 56-80), restricted to its effect on the pod table: with the 10% gate
open, a pod named `dynamic-pod-<int(time.time())>` is inserted with state
`"Pending"`, zero restarts, and zero cpu/memory. -/
def simulate_pod_scheduling (r : K8sDraws) (t : PodTable) : PodTable :=
  if r.createDraw < 1/10 then
    insertPod ("dynamic-pod-" ++ toString r.newPodTime)
      { namespc := namespaceKeys.getD (r.nsChoice % namespaceKeys.length) "default"
        state := "Pending"
        restart_count := 0
        cpu_usage := 0
        memory_usage := 0
        created_at := r.nowTime } t
  else t

/-- The per-pod body of `simulate_pod_failures` (lines 82-110): a pod that is
`"Running"` fails with probability 2% (state `"Failed"`, restart count
incremented) and is then immediately restarted with probability 80% (state
back to `"Running"`).  Pods in any other state are untouched. -/
def failOne (r : K8sDraws) (e : String × PodInfo) : String × PodInfo :=
  if e.2.state == "Running" && r.failDraw e.1 < 1/50 then
    let p := { e.2 with state := "Failed", restart_count := e.2.restart_count + 1 }
    (e.1, if r.restartDraw e.1 < 4/5 then { p with state := "Running" } else p)
  else e

/-- `simulate_pod_failures`, restricted to its effect on the pod table.  The
source snapshots the running pods and mutates each at most once, which is the
same as mapping `failOne` over the table. -/
def simulate_pod_failures (r : K8sDraws) (t : PodTable) : PodTable :=
  t.map (failOne r)

/-- The per-pod body of `simulate_resource_usage` (lines 112-146): running
pods' cpu/memory random-walk, clamped to `[5, 95]` and `[50, 1000]`. -/
def resourceOne (r : K8sDraws) (e : String × PodInfo) : String × PodInfo :=
  if e.2.state == "Running" then
    (e.1, { e.2 with
            cpu_usage := max 5 (min 95 (e.2.cpu_usage + r.cpuDraw e.1))
            memory_usage := max 50 (min 1000 (e.2.memory_usage + r.memDraw e.1)) })
  else e

/-- `simulate_resource_usage`, restricted to its effect on the pod table. -/
def simulate_resource_usage (r : K8sDraws) (t : PodTable) : PodTable :=
  t.map (resourceOne r)

/-- One `simulate_operations` call (lines 164-184), restricted to its effect
on the pod table: scheduling, then failures, then resource usage
(`simulate_networking` and the final cluster-wide metrics read no pod
state). -/
def tableStep (r : K8sDraws) (t : PodTable) : PodTable :=
  simulate_resource_usage r (simulate_pod_failures r (simulate_pod_scheduling r t))

/-- The pod table after a sequence of `simulate_operations` calls. -/
def tableRun (t : PodTable) (rs : List K8sDraws) : PodTable :=
  rs.foldl (fun a r => tableStep r a) t

/-- Every pod's lifecycle state is one of the three strings the simulator
ever stores. -/
def StatesOk (t : PodTable) : Prop :=
  ∀ e ∈ t, e.2.state = "Pending" ∨ e.2.state = "Running" ∨ e.2.state = "Failed"

instance : DecidablePred StatesOk := fun t =>
  inferInstanceAs (Decidable (∀ e ∈ t, _ ∨ _ ∨ _))

/-- The baseline pod fleet the constructor builds (lines 31-54):
7 deployments with fixed replica counts; every pod starts `"Running"` with
drawn restart count, cpu and memory.  The construction-time draws are given
per pod name. -/
def baselineSpec : List (String × String × ℕ) :=
  [("api-server", "default", 3), ("web-frontend", "default", 5),
   ("worker-service", "default", 8), ("redis-cache", "default", 2),
   ("prometheus", "monitoring", 1), ("grafana", "monitoring", 1),
   ("nginx-ingress", "ingress", 3)]

/-- The baseline pod names `f"{name}-{i}"` for one deployment. -/
def replicaNames (name : String) (n : ℕ) : List String :=
  (List.range n).map (fun i => name ++ "-" ++ toString i)

/-- The baseline pod table, given the construction-time draws
(`random.randint(0,5)` restarts, `random.uniform(10,80)` cpu,
`random.uniform(100,800)` memory, and the creation timestamp). -/
def baselineTable (rc : String → ℕ) (cpu mem : String → ℚ) (ca : String → ℕ) :
    PodTable :=
  baselineSpec.foldr (fun d acc =>
    (replicaNames d.1 d.2.2).map (fun nm =>
      (nm, { namespc := d.2.1, state := "Running", restart_count := rc nm
             cpu_usage := cpu nm, memory_usage := mem nm, created_at := ca nm }))
      ++ acc) []

/-- The claim under test for C7, formalised: after one `simulate_operations`
call taking table `t` to table `t'`, no pod that did not exist in `t`
(i.e. was created during the call) is left in state `"Pending"`. -/
def NoFreshPending (t t' : PodTable) : Prop :=
  ∀ e ∈ t', stateOf t e.1 = none → e.2.state ≠ "Pending"

instance (t t' : PodTable) : Decidable (NoFreshPending t t') :=
  inferInstanceAs (Decidable (∀ e ∈ t', _ → _))

/-- Concrete draw record used to exercise pod creation: the creation gate is
open (`random()` returned `1/20 < 0.1`) and no failure gate fires. -/
def rEx : K8sDraws :=
  { createDraw := 1/20
    newPodTime := 100
    schedTimeDraw := 2
    nsChoice := 0
    nowTime := 100
    failDraw := fun _ => 1/2
    restartDraw := fun _ => 1/2
    cpuDraw := fun _ => 1
    memDraw := fun _ => 1 }

end KubernetesSimulator

namespace Scores

/-- `database_health_score` (`src/simulators/database_simulator.py`, lines
197-202): `max(0, min(100, (100 - avg_query_time/10) - (query_errors +
connection_errors)))`. -/
def database_health_score (avgQueryTime queryErrors connectionErrors : ℚ) : ℚ :=
  max 0 (min 100 ((100 - avgQueryTime / 10) - (queryErrors + connectionErrors)))

/-- `storage_performance_score` (`src/simulators/storage_simulator.py`, lines
226-231): the mean of the upload success rate, `100 - api_error_rate` and
`100 - 10 * unauthorized_access_attempts`, clamped to `[0, 100]`. -/
def storage_performance_score (uploadSuccessRate apiErrorRate unauthorized : ℚ) : ℚ :=
  max 0 (min 100 ((uploadSuccessRate + (100 - apiErrorRate) +
    (100 - unauthorized * 10)) / 3))

/-- `network_health_score` (`src/simulators/network_simulator.py`, lines
237-247): the mean of three sub-scores, each floored at 0 but not capped. -/
def network_health_score (avgLatency packetLossRate connErrors : ℚ) : ℚ :=
  (max 0 (100 - avgLatency / 2) + max 0 (100 - packetLossRate * 1000) +
    max 0 (100 - connErrors * 20)) / 3

/-- `system_health_score` (`src/simulators/system_monitor.py`, lines
252-258): the mean of `max(0, 100 - usage%)` over cpu, memory and disk. -/
def system_health_score (cpuPct memPct diskPct : ℚ) : ℚ :=
  (max 0 (100 - cpuPct) + max 0 (100 - memPct) + max 0 (100 - diskPct)) / 3

/-- `cluster_health_score` (`src/simulators/kubernetes_simulator.py`, line
181) is the value `random.uniform(85, 99)` returned, unmodified. -/
def cluster_health_score (draw : ℚ) : ℚ := draw

end Scores

namespace DatabaseSimulator

/-- A stream of the values returned by successive calls to primitives of
Python's global `random` module.  The simulators consume it left to right;
an index into the stream is the per-run module state. -/
abbrev R := ℕ → ℚ

/-- Python `int(x)` on a numeric value: truncation toward zero. -/
def pyInt (q : ℚ) : ℤ := q.num.tdiv (q.den : ℤ)

/-- `connection_pool_size` (`src/simulators/database_simulator.py`, line
19). -/
def connection_pool_size : ℚ := 20

/-- The connection-pool update of `simulate_connection_management` (lines
84-87): `active_connections = max(1, min(pool_size, active + change))`. -/
def connStep (conn change : ℚ) : ℚ :=
  max 1 (min connection_pool_size (conn + change))

/-- The query weight table of `simulate_query_performance` (lines 38-45):
`(name, weight, min_ms, max_ms)` in the source's insertion order. -/
def qpSpec : List (String × ℚ × ℚ × ℚ) :=
  [("select", 3/5, 2, 50), ("insert", 3/20, 5, 100), ("update", 1/10, 10, 200),
   ("delete", 1/20, 8, 150), ("join", 2/25, 20, 500), ("aggregate", 1/50, 50, 1000)]

/-- The inner loop of `simulate_query_performance` (lines 57-65): for each of
`n` queries draw `random.random()` (slow-query gate at 5%) and then one
uniform execution time (from the widened range when slow).  Returns the time
added, the slow queries counted, and the next stream index. -/
def qpInner (s : R) : ℕ → ℕ → ℚ → ℕ → ℚ × ℕ × ℕ
  | 0, i, t, sl => (t, sl, i)
  | n + 1, i, t, sl =>
      qpInner s n (i + 2) (t + s (i + 1)) (if s i < 1/20 then sl + 1 else sl)

/-- Result of the outer loop of `simulate_query_performance`: the per-type
metric entries, the running totals the loop threads (`total_queries`,
`total_time`, `slow_queries`) and the next stream index. -/
structure QpOut where
  entries : Batch
  totQ : ℤ
  totT : ℚ
  totS : ℤ
  idx : ℕ

/-- The outer loop of `simulate_query_performance` (lines 52-70): per query
type, `query_count = int(uniform(10, 100) * weight)`, run the inner loop,
then emit `<type>_avg_time_ms = total_time / max(query_count, 1)` — where
`total_time` is the loop's running total across ALL types so far, exactly as
the source computes it — and `<type>_count`. -/
def qpOuter (s : R) : List (String × ℚ × ℚ × ℚ) → ℤ → ℚ → ℤ → ℕ → QpOut
  | [], totQ, totT, totS, i =>
      { entries := [], totQ := totQ, totT := totT, totS := totS, idx := i }
  | (nm, w, _, _) :: rest, totQ, totT, totS, i =>
      let qc : ℤ := pyInt (s i * w)
      let inner := qpInner s qc.toNat (i + 1) 0 0
      let totT' := totT + inner.1
      let res := qpOuter s rest (totQ + qc) totT' (totS + (inner.2.1 : ℤ)) inner.2.2
      { res with entries :=
          (nm ++ "_avg_time_ms", totT' / ((max qc 1 : ℤ) : ℚ)) ::
          (nm ++ "_count", (qc : ℚ)) :: res.entries }

/-- `simulate_query_performance` (lines 33-78): the per-type entries followed
by the roll-up metrics.  Returns the batch and the next stream index. -/
def simulate_query_performance (s : R) (i : ℕ) : Batch × ℕ :=
  let o := qpOuter s qpSpec 0 0 0 i
  (o.entries ++
    [("total_queries", (o.totQ : ℚ)),
     ("average_query_time_ms", o.totT / ((max o.totQ 1 : ℤ) : ℚ)),
     ("slow_queries_count", (o.totS : ℚ)),
     ("slow_query_percentage", ((o.totS : ℚ) / ((max o.totQ 1 : ℤ) : ℚ)) * 100)],
   o.idx)

/-- `simulate_connection_management` (lines 80-106): the random-walk update
of `active_connections`, pool metrics, the 2% connection-error gate, and the
regime-switched wait time.  Both wait-time regimes draw exactly one uniform
value, so in the value model both branches read the same stream position;
the regime determines only the range the draw was taken from.  Returns the
batch, the new gauge value, and the next stream index. -/
def simulate_connection_management (s : R) (i : ℕ) (conn : ℚ) : Batch × ℚ × ℕ :=
  let conn' := connStep conn (s i)
  let errPair : ℚ × ℕ := if s (i + 1) < 1/50 then (s (i + 2), i + 3) else (0, i + 2)
  let wait := if conn' > connection_pool_size * (4/5) then s errPair.2 else s errPair.2
  ([("active_connections", conn'),
    ("connection_pool_utilization", conn' / connection_pool_size * 100),
    ("max_connections", connection_pool_size),
    ("connection_errors", errPair.1),
    ("connection_wait_time_ms", wait)],
   conn', errPair.2 + 1)

/-- `simulate_transaction_metrics` (lines 108-129): transaction counts with
`commits = int(transactions * uniform(0.92, 0.98))`, timing, locks, and the
10%-gated deadlock count. -/
def simulate_transaction_metrics (s : R) (i : ℕ) : Batch × ℕ :=
  let tx := s i
  let commits : ℚ := (pyInt (tx * s (i + 1)) : ℚ)
  let dead : ℚ × ℕ := if s (i + 4) < 1/10 then (s (i + 5), i + 6) else (0, i + 5)
  ([("transactions_total", tx),
    ("transactions_committed", commits),
    ("transactions_rolled_back", tx - commits),
    ("transaction_success_rate", commits / tx * 100),
    ("transaction_avg_time_ms", s (i + 2)),
    ("lock_waits", s (i + 3)),
    ("deadlocks", dead.1)],
   dead.2)

/-- `simulate_maintenance_operations` (lines 131-151): the 10%-gated vacuum
block followed by index and cache metrics. -/
def simulate_maintenance_operations (s : R) (i : ℕ) : Batch × ℕ :=
  let vac : Batch × ℕ :=
    if s i < 1/10 then
      ([("vacuum_operations", 1), ("vacuum_duration_ms", s (i + 1))], i + 2)
    else ([("vacuum_operations", 0)], i + 1)
  (vac.1 ++
    [("index_scans", s vac.2),
     ("sequential_scans", s (vac.2 + 1)),
     ("index_hit_ratio", s (vac.2 + 2)),
     ("buffer_cache_hit_ratio", s (vac.2 + 3)),
     ("shared_buffer_usage_mb", s (vac.2 + 4))],
   vac.2 + 5)

/-- `simulate_error_conditions` (lines 153-177): the 5%-gated query-error
block (`randint(1, 10)` errors plus one `random.choice` draw consumed only
for logging), disk usage, and the 30%-gated replication lag. -/
def simulate_error_conditions (s : R) (i : ℕ) : Batch × ℕ :=
  let qe : ℚ × ℕ := if s i < 1/20 then (s (i + 1), i + 3) else (0, i + 1)
  let disk := s qe.2
  let base := [("query_errors", qe.1), ("disk_usage_percentage", disk)]
  if s (qe.2 + 1) < 3/10 then
    (base ++ [("replication_lag_ms", s (qe.2 + 2))], qe.2 + 3)
  else (base, qe.2 + 2)

/-- `simulate_operations` (lines 179-204): runs the five sections in order,
concatenates their batches, and appends `database_health_score` computed from
the combined metrics.  Returns the batch, the new connection gauge, and the
next stream index. -/
def simulate_operations (s : R) (i : ℕ) (conn : ℚ) : Batch × ℚ × ℕ :=
  let q := simulate_query_performance s i
  let c := simulate_connection_management s q.2 conn
  let t := simulate_transaction_metrics s c.2.2
  let m := simulate_maintenance_operations s t.2
  let e := simulate_error_conditions s m.2
  let all := q.1 ++ c.1 ++ t.1 ++ m.1 ++ e.1
  let health := Scores.database_health_score
    (getD all "average_query_time_ms" 50)
    (getD all "query_errors" 0)
    (getD all "connection_errors" 0)
  (all ++ [("database_health_score", health)], c.2.1, e.2)

/-- `DatabaseSimulator.__init__` (line 20) followed by the first
`simulate_operations` call: the constructor draws
`active_connections = randint(5, 15)` from the stream, then the first produce
consumes the rest.  Returns the first-cycle batch, the gauge, and the number
of stream positions consumed in total. -/
def firstRun (s : R) : Batch × ℚ × ℕ :=
  simulate_operations s 1 (s 0)

/-- Two `DatabaseSimulator` instances in one process, as the source builds
them: both constructors and both first `simulate_operations` calls draw from
the single process-global `random` stream, in program order (instance 1's
constructor, instance 2's constructor, then each instance's first cycle). -/
def twoInstanceFirstBatches (s : R) : Batch × Batch :=
  let c1 := s 0
  let c2 := s 1
  let r1 := simulate_operations s 2 c1
  let r2 := simulate_operations s r1.2.2 c2
  (r1.1, r2.1)

/-- One produce-cycle's worth of concrete draw values (39 positions), each a
value its primitive can return: count multipliers of 10 (`uniform(10,100)`),
slow-query gates of `1/2` (`random()`), execution times of 10 ms, a
connection delta of 0 (`randint(-3,5)`), and so on; every probability gate
that would branch is closed. -/
def segVals : List ℚ :=
  [10, 1/2, 10, 1/2, 10, 1/2, 10, 1/2, 10, 1/2, 10, 1/2, 10,
   10, 1/2, 10,
   10, 1/2, 10,
   10, 10, 10,
   0, 1/2, 1,
   100, 19/20, 100, 0, 1/2,
   1/2, 100, 10, 90, 95, 100,
   1/2, 60, 1/2]

/-- Concrete global stream for the two-instance scenario: position 0 returns
5 (instance 1's `randint(5, 15)`), position 1 returns 9 (instance 2's), and
the remaining positions repeat the 39-draw cycle pattern, so both produce
calls see identical draw values at corresponding offsets. -/
def sCex : R := fun i =>
  if i = 0 then 5 else if i = 1 then 9 else segVals.getD ((i - 2) % 39) 0

/-- Concrete stream for exercising `simulate_query_performance` from index 0:
the same 39-draw cycle pattern. -/
def sC6 : R := fun i => segVals.getD (i % 39) 0

/-- A stream agreeing with `sCex` exactly on the 38 positions one
construction plus first produce consumes, and wildly different afterwards. -/
def sC9w : R := fun i => if i < 38 then sCex i else 999

end DatabaseSimulator

namespace TelemetryWorker

/-- The sleep computation of the run loop (`src/telemetry_worker.py`, lines
174-177): `jitter = uniform(-0.1, 0.1) * base_interval` and
`sleep_time = max(1, base_interval + jitter)`; `u` is the value the uniform
draw returned. -/
def sleep_time (base u : ℚ) : ℚ := max 1 (base + u * base)

end TelemetryWorker

/-- A concrete configuration with every simulation flag enabled (the
defaults of `src/config.py`). -/
def cfgEx : Config :=
  { NEW_RELIC_ENABLED := false
    MONITORING_INTERVAL := 30
    ENABLE_K8S_SIMULATION := true
    ENABLE_DB_SIMULATION := true
    ENABLE_STORAGE_SIMULATION := true
    ENABLE_NETWORK_SIMULATION := true
    ENABLE_SYSTEM_MONITORING := true }

/-- A concrete environment that turns every `ENABLE_*` simulation flag
off. -/
def envOff : Config.Env :=
  [("ENABLE_K8S_SIMULATION", "false"), ("ENABLE_DB_SIMULATION", "false"),
   ("ENABLE_STORAGE_SIMULATION", "false"), ("ENABLE_NETWORK_SIMULATION", "false"),
   ("ENABLE_SYSTEM_MONITORING", "false")]

/-- The configuration `Config.__init__` builds from `envOff`. -/
def cfgOff : Config :=
  { NEW_RELIC_ENABLED := false
    MONITORING_INTERVAL := 30
    ENABLE_K8S_SIMULATION := false
    ENABLE_DB_SIMULATION := false
    ENABLE_STORAGE_SIMULATION := false
    ENABLE_NETWORK_SIMULATION := false
    ENABLE_SYSTEM_MONITORING := false }

/-! ## Theorems -/

namespace TelemetryWorker

theorem errorEvents_mets_append (p : String) (b : Batch) (l : List Emitted) :
    errorEvents (mets p b ++ l) = errorEvents l := by
  induction b with
  | nil => rfl
  | cons m rest ih => simp [mets, errorEvents]

/-- C2: whenever some provider call inside `run_simulation_cycle` raises, the
single `except Exception` handler catches it, exactly one `TelemetryError`
event is emitted and it carries the (first) raised exception's type name and
message; the method returns normally, so the run loop proceeds to the next
cycle unhindered (the emissions of a following cycle are appended exactly as
if this cycle had succeeded). -/
theorem C2_provider_error_caught (cfg : Config) (a b c d e : PRes) (er : Exn)
    (rest : List (PRes × PRes × PRes × PRes × PRes))
    (h : firstFailure a b c d e = some er) :
    errorEvents (run_simulation_cycle cfg a b c d e) = [(er.ty, er.msg)] ∧
    runCycles cfg ((a, b, c, d, e) :: rest)
      = run_simulation_cycle cfg a b c d e ++ runCycles cfg rest := by
  refine ⟨?_, rfl⟩
  rcases a with kb | ea
  case exn =>
    rw [firstFailure] at h
    cases h
    rfl
  rcases b with dbb | eb
  case exn =>
    rw [firstFailure] at h
    cases h
    simp only [run_simulation_cycle, errorEvents_mets_append]
    rfl
  rcases c with sb | ec
  case exn =>
    rw [firstFailure] at h
    cases h
    simp only [run_simulation_cycle, errorEvents_mets_append]
    rfl
  rcases d with nb | ed
  case exn =>
    rw [firstFailure] at h
    cases h
    simp only [run_simulation_cycle, errorEvents_mets_append]
    rfl
  rcases e with yb | ee
  case exn =>
    rw [firstFailure] at h
    cases h
    simp only [run_simulation_cycle, errorEvents_mets_append]
    rfl
  rw [firstFailure] at h
  cases h

/-- Witness for C2 at a concrete cycle: the database provider raises
`RuntimeError("boom")` while the other four succeed. -/
theorem C2_provider_error_caught_witness :
    errorEvents (run_simulation_cycle cfgEx (.ok [("a", 1)])
        (.exn ⟨"RuntimeError", "boom"⟩) (.ok [("b", 2)]) (.ok [("c", 3)])
        (.ok [("d", 4)]))
      = [("RuntimeError", "boom")] ∧
    runCycles cfgEx
        ((PRes.ok [("a", 1)], PRes.exn ⟨"RuntimeError", "boom"⟩,
          PRes.ok [("b", 2)], PRes.ok [("c", 3)], PRes.ok [("d", 4)]) :: [])
      = run_simulation_cycle cfgEx (.ok [("a", 1)]) (.exn ⟨"RuntimeError", "boom"⟩)
          (.ok [("b", 2)]) (.ok [("c", 3)]) (.ok [("d", 4)]) ++ runCycles cfgEx [] :=
  C2_provider_error_caught cfgEx (.ok [("a", 1)]) (.exn ⟨"RuntimeError", "boom"⟩)
    (.ok [("b", 2)]) (.ok [("c", 3)]) (.ok [("d", 4)]) ⟨"RuntimeError", "boom"⟩ [] rfl

end TelemetryWorker

namespace TelemetryWorker

/-- C1 is false on the code: all five provider calls sit inside one `try:`
block, so when the database provider (second in order) raises, the storage,
network and system providers never run in that cycle.  At this concrete
cycle the emissions are exactly the k8s metrics followed by the single
`TelemetryError` event — in particular the storage provider's batch, which
the claim says must still be exported, is absent. -/
theorem C1_counterexample :
    run_simulation_cycle cfgEx (.ok [("a", 1)]) (.exn ⟨"RuntimeError", "boom"⟩)
        (.ok [("b", 2)]) (.ok [("c", 3)]) (.ok [("d", 4)])
      = [.metric "k8s.a" 1, .telemetryError "RuntimeError" "boom"] ∧
    Emitted.metric "storage.b" 2 ∉
      run_simulation_cycle cfgEx (.ok [("a", 1)]) (.exn ⟨"RuntimeError", "boom"⟩)
        (.ok [("b", 2)]) (.ok [("c", 3)]) (.ok [("d", 4)]) := by
  refine ⟨rfl, ?_⟩
  decide

/-- C1 amended: the orchestrator isolates the cycle as a whole, not each
provider call.  When exactly one provider raises, the providers ordered
before it still produce and export their batches in that cycle, the
providers ordered after it do not run, and exactly one `TelemetryError`
event (and no cycle event) is emitted — characterised here by one equation
per failing position. -/
theorem C1_amended :
    (∀ (cfg : Config) (e : Exn) (b2 b3 b4 b5 : Batch),
      run_simulation_cycle cfg (.exn e) (.ok b2) (.ok b3) (.ok b4) (.ok b5)
        = [.telemetryError e.ty e.msg]) ∧
    (∀ (cfg : Config) (b1 : Batch) (e : Exn) (b3 b4 b5 : Batch),
      run_simulation_cycle cfg (.ok b1) (.exn e) (.ok b3) (.ok b4) (.ok b5)
        = mets "k8s" b1 ++ [.telemetryError e.ty e.msg]) ∧
    (∀ (cfg : Config) (b1 b2 : Batch) (e : Exn) (b4 b5 : Batch),
      run_simulation_cycle cfg (.ok b1) (.ok b2) (.exn e) (.ok b4) (.ok b5)
        = mets "k8s" b1 ++ (mets "database" b2 ++ [.telemetryError e.ty e.msg])) ∧
    (∀ (cfg : Config) (b1 b2 b3 : Batch) (e : Exn) (b5 : Batch),
      run_simulation_cycle cfg (.ok b1) (.ok b2) (.ok b3) (.exn e) (.ok b5)
        = mets "k8s" b1 ++ (mets "database" b2 ++ (mets "storage" b3 ++
            [.telemetryError e.ty e.msg]))) ∧
    (∀ (cfg : Config) (b1 b2 b3 b4 : Batch) (e : Exn),
      run_simulation_cycle cfg (.ok b1) (.ok b2) (.ok b3) (.ok b4) (.exn e)
        = mets "k8s" b1 ++ (mets "database" b2 ++ (mets "storage" b3 ++
            (mets "network" b4 ++ [.telemetryError e.ty e.msg])))) :=
  ⟨fun _ _ _ _ _ _ => rfl, fun _ _ _ _ _ _ => rfl, fun _ _ _ _ _ _ => rfl,
   fun _ _ _ _ _ _ => rfl, fun _ _ _ _ _ _ => rfl⟩

/-- C10: `run_simulation_cycle` reads none of the `ENABLE_*` flags parsed by
`Config.__init__` — its emissions are identical under any two configurations,
and on a successful cycle all five providers' batches are exported, followed
by the structured cycle event and the `TelemetryCycle` summary.  The
hypothesis exhibits the configuration as one `Config.__init__` builds from an
arbitrary environment (including environments disabling every flag). -/
theorem C10_enable_flags_ignored (env : Config.Env) (cfg cfg' : Config)
    (hc : Config.mkConfig env = some cfg) (kb dbb sb nb yb : Batch) :
    run_simulation_cycle cfg (.ok kb) (.ok dbb) (.ok sb) (.ok nb) (.ok yb)
      = run_simulation_cycle cfg' (.ok kb) (.ok dbb) (.ok sb) (.ok nb) (.ok yb) ∧
    run_simulation_cycle cfg (.ok kb) (.ok dbb) (.ok sb) (.ok nb) (.ok yb)
      = mets "k8s" kb ++ (mets "database" dbb ++ (mets "storage" sb ++
          (mets "network" nb ++ (mets "system" yb ++
            [.cycleLog [("kubernetes", kb), ("database", dbb), ("storage", sb),
                        ("network", nb), ("system", yb)],
             .telemetryCycle (kb.length + dbb.length + sb.length + nb.length +
                              yb.length)])))) :=
  ⟨rfl, rfl⟩

/-- Witness for C10: the environment `envOff` switches every `ENABLE_*` flag
to `"false"`, `Config.__init__` accepts it, and the cycle still runs and
exports all five providers' batches. -/
theorem C10_enable_flags_ignored_witness :
    run_simulation_cycle cfgOff (.ok [("a", 1)]) (.ok [("b", 2)]) (.ok [("c", 3)])
        (.ok [("d", 4)]) (.ok [("e", 5)])
      = run_simulation_cycle cfgEx (.ok [("a", 1)]) (.ok [("b", 2)]) (.ok [("c", 3)])
          (.ok [("d", 4)]) (.ok [("e", 5)]) ∧
    run_simulation_cycle cfgOff (.ok [("a", 1)]) (.ok [("b", 2)]) (.ok [("c", 3)])
        (.ok [("d", 4)]) (.ok [("e", 5)])
      = mets "k8s" [("a", 1)] ++ (mets "database" [("b", 2)] ++
          (mets "storage" [("c", 3)] ++ (mets "network" [("d", 4)] ++
            (mets "system" [("e", 5)] ++
              [.cycleLog [("kubernetes", [("a", 1)]), ("database", [("b", 2)]),
                          ("storage", [("c", 3)]), ("network", [("d", 4)]),
                          ("system", [("e", 5)])],
               .telemetryCycle (([("a", (1 : ℚ))]).length + ([("b", (2 : ℚ))]).length +
                 ([("c", (3 : ℚ))]).length + ([("d", (4 : ℚ))]).length +
                 ([("e", (5 : ℚ))]).length)])))) :=
  C10_enable_flags_ignored envOff cfgOff cfgEx (by decide) [("a", 1)] [("b", 2)]
    [("c", 3)] [("d", 4)] [("e", 5)]

end TelemetryWorker

namespace KubernetesSimulator

theorem insertPod_length (k : String) (v : PodInfo) (t : PodTable) :
    t.length ≤ (insertPod k v t).length := by
  induction t with
  | nil => simp [insertPod]
  | cons e rest ih =>
    rw [insertPod]
    split
    · simp
    · simpa using ih

theorem mem_insertPod (k : String) (v : PodInfo) (t : PodTable)
    (e' : String × PodInfo) (h : e' ∈ insertPod k v t) : e' = (k, v) ∨ e' ∈ t := by
  induction t with
  | nil => simpa [insertPod] using h
  | cons e rest ih =>
    rw [insertPod] at h
    split at h
    · rcases List.mem_cons.mp h with rfl | h
      · exact Or.inl rfl
      · exact Or.inr (List.mem_cons_of_mem _ h)
    · rcases List.mem_cons.mp h with rfl | h
      · exact Or.inr (List.mem_cons_self _ _)
      · rcases ih h with h1 | h1
        · exact Or.inl h1
        · exact Or.inr (List.mem_cons_of_mem _ h1)

theorem find?_insertPod_self (k : String) (v : PodInfo) (t : PodTable) :
    (insertPod k v t).find? (fun e => e.1 == k) = some (k, v) := by
  induction t with
  | nil => simp [insertPod]
  | cons e rest ih =>
    rw [insertPod]
    split
    · simp
    · rename_i hne
      rw [List.find?_cons_of_neg _ (by simpa using hne)]
      exact ih

theorem find?_insertPod_other (k key : String) (hne : k ≠ key) (v : PodInfo)
    (t : PodTable) :
    (insertPod k v t).find? (fun e => e.1 == key)
      = t.find? (fun e => e.1 == key) := by
  induction t with
  | nil => simp [insertPod, hne]
  | cons e rest ih =>
    rw [insertPod]
    split
    · rename_i heq
      have he1 : e.1 = k := by simpa using heq
      rw [List.find?_cons_of_neg _ (by simpa using hne),
        List.find?_cons_of_neg _ (by simp [he1, hne])]
    · by_cases hek : e.1 = key
      · rw [List.find?_cons_of_pos _ (by simp [hek]),
          List.find?_cons_of_pos _ (by simp [hek])]
      · rw [List.find?_cons_of_neg _ (by simp [hek]),
          List.find?_cons_of_neg _ (by simp [hek])]
        exact ih

theorem find?_map_keyfix (f : String × PodInfo → String × PodInfo)
    (hf : ∀ e, (f e).1 = e.1) (t : PodTable) (k : String) :
    (t.map f).find? (fun e => e.1 == k)
      = (t.find? (fun e => e.1 == k)).map f := by
  induction t with
  | nil => simp
  | cons e rest ih =>
    rw [List.map_cons]
    by_cases hek : e.1 = k
    · rw [List.find?_cons_of_pos _ (by simp [hf, hek]),
        List.find?_cons_of_pos _ (by simp [hek])]
      rfl
    · rw [List.find?_cons_of_neg _ (by simp [hf, hek]),
        List.find?_cons_of_neg _ (by simp [hek])]
      exact ih

theorem failOne_key (r : K8sDraws) (e : String × PodInfo) : (failOne r e).1 = e.1 := by
  rw [failOne]
  split
  · rfl
  · rfl

theorem resourceOne_key (r : K8sDraws) (e : String × PodInfo) :
    (resourceOne r e).1 = e.1 := by
  rw [resourceOne]
  split
  · rfl
  · rfl

theorem failOne_state (r : K8sDraws) (e : String × PodInfo) :
    (failOne r e).2.state = e.2.state ∨ (failOne r e).2.state = "Failed" ∨
      (failOne r e).2.state = "Running" := by
  rw [failOne]
  split
  · split
    · exact Or.inr (Or.inr rfl)
    · exact Or.inr (Or.inl rfl)
  · exact Or.inl rfl

theorem resourceOne_state (r : K8sDraws) (e : String × PodInfo) :
    (resourceOne r e).2.state = e.2.state := by
  rw [resourceOne]
  split
  · rfl
  · rfl

theorem failOne_pending (r : K8sDraws) (e : String × PodInfo)
    (h : e.2.state = "Pending") : (failOne r e).2.state = "Pending" := by
  simp [failOne, h]

theorem resourceOne_pending (r : K8sDraws) (e : String × PodInfo)
    (h : e.2.state = "Pending") : (resourceOne r e).2.state = "Pending" := by
  simp [resourceOne, h]

theorem statesOk_tableStep (r : K8sDraws) (t : PodTable) (h : StatesOk t) :
    StatesOk (tableStep r t) := by
  intro e he
  rw [tableStep, simulate_resource_usage] at he
  obtain ⟨e1, he1, rfl⟩ := List.mem_map.mp he
  rw [simulate_pod_failures] at he1
  obtain ⟨e2, he2, rfl⟩ := List.mem_map.mp he1
  rw [resourceOne_state]
  rcases failOne_state r e2 with hs | hs | hs
  · rw [hs]
    rw [simulate_pod_scheduling] at he2
    split at he2
    · rcases mem_insertPod _ _ _ _ he2 with rfl | he2
      · exact Or.inl rfl
      · exact h e2 he2
    · exact h e2 he2
  · exact Or.inr (Or.inr hs)
  · exact Or.inr (Or.inl hs)

theorem length_tableStep (r : K8sDraws) (t : PodTable) :
    t.length ≤ (tableStep r t).length := by
  rw [tableStep, simulate_resource_usage, simulate_pod_failures]
  simp only [List.length_map]
  rw [simulate_pod_scheduling]
  split
  · exact insertPod_length _ _ _
  · exact le_refl _

theorem scanl_len_lower (rs : List K8sDraws) (t : PodTable) :
    ∀ b ∈ List.scanl (fun a r => tableStep r a) t rs, t.length ≤ b.length := by
  induction rs generalizing t with
  | nil =>
    intro b hb
    simp only [List.scanl_nil, List.mem_singleton] at hb
    exact hb ▸ le_refl _
  | cons r rs ih =>
    intro b hb
    rw [List.scanl_cons] at hb
    rcases List.mem_cons.mp hb with rfl | hb
    · exact le_refl _
    · exact le_trans (length_tableStep r t) (ih (tableStep r t) b hb)

/-- C4: across any sequence of `simulate_operations` calls, the pod-state
table never shrinks (no pod is ever removed — the table lengths along the
run are pairwise non-decreasing), and after every call every pod's
lifecycle state remains one of `"Pending"`, `"Running"`, `"Failed"`,
provided the starting table satisfies that (as the baseline fleet does):
`t'` ranges over every intermediate table of the run. -/
theorem C4_pod_table_invariants (t : PodTable) (rs : List K8sDraws)
    (t' : PodTable) (h : StatesOk t)
    (ht' : t' ∈ List.scanl (fun a r => tableStep r a) t rs) :
    StatesOk t' ∧
    List.Pairwise (fun a b => a.length ≤ b.length)
      (List.scanl (fun a r => tableStep r a) t rs) := by
  induction rs generalizing t t' with
  | nil =>
    simp only [List.scanl_nil, List.mem_singleton] at ht'
    exact ⟨ht' ▸ h, by simp [List.scanl_nil]⟩
  | cons r rs ih =>
    rw [List.scanl_cons] at ht' ⊢
    constructor
    · rcases List.mem_cons.mp ht' with rfl | ht'
      · exact h
      · exact (ih _ _ (statesOk_tableStep r t h) ht').1
    · refine List.pairwise_cons.mpr
        ⟨fun b hb => le_trans (length_tableStep r t)
          (scanl_len_lower rs (tableStep r t) b hb), ?_⟩
      have hmem : tableStep r t ∈
          List.scanl (fun a r => tableStep r a) (tableStep r t) rs := by
        cases rs with
        | nil => simp [List.scanl_nil]
        | cons r2 rs2 => rw [List.scanl_cons]; exact List.mem_cons_self _ _
      exact (ih _ _ (statesOk_tableStep r t h) hmem).2

/-- Witness for C4: the baseline fleet built by the constructor (all pods
`"Running"`) run through one concrete `simulate_operations` call, inspecting
the starting table. -/
theorem C4_pod_table_invariants_witness :
    StatesOk (baselineTable (fun _ => 0) (fun _ => 50) (fun _ => 100)
      (fun _ => 0)) ∧
    List.Pairwise (fun a b => a.length ≤ b.length)
      (List.scanl (fun a r => tableStep r a)
        (baselineTable (fun _ => 0) (fun _ => 50) (fun _ => 100) (fun _ => 0))
        [rEx]) :=
  C4_pod_table_invariants _ [rEx] _ (by decide)
    (by rw [List.scanl_cons]; exact List.mem_cons_self _ _)

end KubernetesSimulator

namespace KubernetesSimulator

/-- C7 is false on the code: `simulate_pod_scheduling` inserts new pods with
state `"Pending"` and no later phase of `simulate_operations` ever touches a
`"Pending"` pod (`simulate_pod_failures` and `simulate_resource_usage` act
only on `"Running"` pods), so a pod created during a call is still `Pending`
when the call returns.  Concretely, with the creation gate open on an empty
table, the resulting table holds the one freshly created pod in state
`"Pending"`. -/
theorem C7_counterexample : ¬ NoFreshPending [] (tableStep rEx []) := by
  have htab : tableStep rEx [] = [("dynamic-pod-100",
      { namespc := "default", state := "Pending", restart_count := 0,
        cpu_usage := 0, memory_usage := 0, created_at := 100 })] := by
    norm_num [tableStep, simulate_pod_scheduling, simulate_pod_failures,
      simulate_resource_usage, insertPod, failOne, resourceOne, rEx, namespaceKeys]
    simp
    rfl
  rw [htab]
  intro h
  exact h _ (List.mem_singleton.mpr rfl) rfl rfl

theorem stateOf_map_pending (f : String × PodInfo → String × PodInfo)
    (hk : ∀ e, (f e).1 = e.1)
    (hp : ∀ e, e.2.state = "Pending" → (f e).2.state = "Pending")
    (t : PodTable) (k : String) (h : stateOf t k = some "Pending") :
    stateOf (t.map f) k = some "Pending" := by
  rw [stateOf, find?_map_keyfix f hk]
  rw [stateOf] at h
  cases hf : t.find? (fun e => e.1 == k) with
  | none => rw [hf] at h; simp at h
  | some e =>
    rw [hf] at h
    simp only [Option.map_some'] at h ⊢
    have he : e.2.state = "Pending" := by simpa using h
    simp [hp e he]

theorem pending_after_sched (r : K8sDraws) (t : PodTable) (k : String)
    (h : stateOf (simulate_pod_scheduling r t) k = some "Pending") :
    stateOf (tableStep r t) k = some "Pending" := by
  rw [tableStep, simulate_resource_usage, simulate_pod_failures]
  exact stateOf_map_pending _ (resourceOne_key r) (resourceOne_pending r) _ k
    (stateOf_map_pending _ (failOne_key r) (failOne_pending r) _ k h)

theorem pending_sched (r : K8sDraws) (t : PodTable) (k : String)
    (h : stateOf t k = some "Pending") :
    stateOf (simulate_pod_scheduling r t) k = some "Pending" := by
  rw [simulate_pod_scheduling]
  split
  · by_cases hk : ("dynamic-pod-" ++ toString r.newPodTime) = k
    · subst hk
      rw [stateOf, find?_insertPod_self]
      rfl
    · rw [stateOf, find?_insertPod_other _ _ hk]
      exact h
  · exact h

theorem pending_tableStep (r : K8sDraws) (t : PodTable) (k : String)
    (h : stateOf t k = some "Pending") :
    stateOf (tableStep r t) k = some "Pending" :=
  pending_after_sched r t k (pending_sched r t k h)

theorem fresh_pending (r : K8sDraws) (t : PodTable) (h : r.createDraw < 1/10) :
    stateOf (tableStep r t) ("dynamic-pod-" ++ toString r.newPodTime)
      = some "Pending" := by
  refine pending_after_sched r t _ ?_
  rw [simulate_pod_scheduling, if_pos h, stateOf, find?_insertPod_self]
  rfl

theorem pending_tableRun (rs : List K8sDraws) (t : PodTable) (k : String)
    (h : stateOf t k = some "Pending") :
    stateOf (tableRun t rs) k = some "Pending" := by
  induction rs generalizing t with
  | nil => exact h
  | cons r rs ih => exact ih _ (pending_tableStep r t k h)

/-- C7 amended: pods never transition `Pending → Running`.  A pod created
during a `simulate_operations` call is in state `"Pending"` when that call
returns and is still `"Pending"` after every later call (only the creation
gate being open is needed; nothing else about the draws matters). -/
theorem C7_created_pods_stay_pending (r : K8sDraws) (rs : List K8sDraws)
    (t : PodTable) (h : r.createDraw < 1/10) :
    stateOf (tableRun (tableStep r t) rs)
      ("dynamic-pod-" ++ toString r.newPodTime) = some "Pending" :=
  pending_tableRun rs _ _ (fresh_pending r t h)

/-- Witness for C7 amended: the concrete creation draws of `rEx` on the
empty table. -/
theorem C7_created_pods_stay_pending_witness :
    stateOf (tableRun (tableStep rEx []) [])
      ("dynamic-pod-" ++ toString rEx.newPodTime) = some "Pending" :=
  C7_created_pods_stay_pending rEx [] [] (by norm_num [rEx])

end KubernetesSimulator

namespace DatabaseSimulator

theorem connStep_lower (c d : ℚ) : 1 ≤ connStep c d := le_max_left 1 _

theorem connStep_upper (c d : ℚ) : connStep c d ≤ 20 := by
  rw [connStep, connection_pool_size]
  exact max_le (by norm_num) (min_le_left _ _)

/-- C5: starting from an in-range gauge (the constructor draws
`randint(5, 15) ⊆ [1, 20]`), `active_connections` stays within
`[1, pool_size] = [1, 20]` after every `simulate_connection_management`
update: every value the gauge takes along any sequence of connection-change
draws is in range. -/
theorem C5_active_connections_in_range (c0 : ℚ) (ds : List ℚ) (c : ℚ)
    (h1 : 1 ≤ c0) (h2 : c0 ≤ 20) (hc : c ∈ List.scanl connStep c0 ds) :
    1 ≤ c ∧ c ≤ 20 := by
  induction ds generalizing c0 with
  | nil =>
    simp only [List.scanl_nil, List.mem_singleton] at hc
    exact hc ▸ ⟨h1, h2⟩
  | cons d ds ih =>
    rw [List.scanl_cons] at hc
    rcases List.mem_cons.mp hc with rfl | hc
    · exact ⟨h1, h2⟩
    · exact ih (connStep c0 d) (connStep_lower c0 d) (connStep_upper c0 d) hc

/-- Witness for C5: initial gauge 5 (a `randint(5, 15)` value), one cycle
with delta 3, the resulting gauge 8. -/
theorem C5_active_connections_in_range_witness : (1 : ℚ) ≤ 8 ∧ (8 : ℚ) ≤ 20 :=
  C5_active_connections_in_range 5 [3] 8 (by norm_num) (by norm_num)
    (by norm_num [List.scanl, connStep, connection_pool_size])

end DatabaseSimulator

namespace TelemetryWorker

/-- C8: the scheduler's sleep duration is `max(1, base + u·base)` with the
jitter factor `u` drawn by `uniform(-0.1, 0.1)`; it is never below 1 second
for any base interval, and for `base_interval = 30` it always lies within
`[27, 33]` seconds. -/
theorem C8_sleep_time_bounds (base u : ℚ) (h1 : -(1/10) ≤ u) (h2 : u ≤ 1/10) :
    sleep_time base u = max 1 (base + u * base) ∧
    1 ≤ sleep_time base u ∧
    27 ≤ sleep_time 30 u ∧ sleep_time 30 u ≤ 33 := by
  refine ⟨rfl, le_max_left 1 _, ?_, ?_⟩
  · have h : (27 : ℚ) ≤ 30 + u * 30 := by nlinarith
    exact le_trans h (le_max_right 1 _)
  · exact max_le (by norm_num) (by nlinarith)

/-- Witness for C8 at the concrete jitter draw `u = 1/10`. -/
theorem C8_sleep_time_bounds_witness :
    sleep_time 30 (1/10) = max 1 (30 + (1/10) * 30) ∧
    1 ≤ sleep_time 30 (1/10) ∧
    27 ≤ sleep_time 30 (1/10) ∧ sleep_time 30 (1/10) ≤ 33 :=
  C8_sleep_time_bounds 30 (1/10) (by norm_num) (by norm_num)

end TelemetryWorker

namespace Scores

/-- C3: each provider's health/performance score lies in `[0, 100]`.  For
the database and storage scores this is unconditional (they are clamped);
the cluster score is the `uniform(85, 99)` draw itself; the network score
needs only that its inputs (an average of latencies floored at 1, a
`uniform(0.001, 0.1)` loss rate, and a sum of non-negative error counts) are
non-negative; the system score needs only that the three OS usage
percentages are non-negative. -/
theorem C3_health_scores_in_range
    (avgQ qe ce us ae ua l p e ch cpu mem dsk : ℚ)
    (hch1 : 85 ≤ ch) (hch2 : ch ≤ 99)
    (hl : 0 ≤ l) (hp : 0 ≤ p) (he : 0 ≤ e)
    (hcpu : 0 ≤ cpu) (hmem : 0 ≤ mem) (hdsk : 0 ≤ dsk) :
    (0 ≤ database_health_score avgQ qe ce ∧ database_health_score avgQ qe ce ≤ 100) ∧
    (0 ≤ storage_performance_score us ae ua ∧
      storage_performance_score us ae ua ≤ 100) ∧
    (0 ≤ network_health_score l p e ∧ network_health_score l p e ≤ 100) ∧
    (0 ≤ system_health_score cpu mem dsk ∧ system_health_score cpu mem dsk ≤ 100) ∧
    (0 ≤ cluster_health_score ch ∧ cluster_health_score ch ≤ 100) := by
  refine ⟨⟨le_max_left 0 _, max_le (by norm_num) (min_le_left _ _)⟩,
    ⟨le_max_left 0 _, max_le (by norm_num) (min_le_left _ _)⟩, ⟨?_, ?_⟩, ⟨?_, ?_⟩,
    ⟨by rw [cluster_health_score]; linarith, by rw [cluster_health_score]; linarith⟩⟩
  · rw [network_health_score]
    have t1 : (0 : ℚ) ≤ max 0 (100 - l / 2) := le_max_left 0 _
    have t2 : (0 : ℚ) ≤ max 0 (100 - p * 1000) := le_max_left 0 _
    have t3 : (0 : ℚ) ≤ max 0 (100 - e * 20) := le_max_left 0 _
    linarith
  · rw [network_health_score]
    have t1 : max 0 (100 - l / 2) ≤ 100 := max_le (by norm_num) (by linarith)
    have t2 : max 0 (100 - p * 1000) ≤ 100 := max_le (by norm_num) (by nlinarith)
    have t3 : max 0 (100 - e * 20) ≤ 100 := max_le (by norm_num) (by nlinarith)
    linarith
  · rw [system_health_score]
    have t1 : (0 : ℚ) ≤ max 0 (100 - cpu) := le_max_left 0 _
    have t2 : (0 : ℚ) ≤ max 0 (100 - mem) := le_max_left 0 _
    have t3 : (0 : ℚ) ≤ max 0 (100 - dsk) := le_max_left 0 _
    linarith
  · rw [system_health_score]
    have t1 : max 0 (100 - cpu) ≤ 100 := max_le (by norm_num) (by linarith)
    have t2 : max 0 (100 - mem) ≤ 100 := max_le (by norm_num) (by linarith)
    have t3 : max 0 (100 - dsk) ≤ 100 := max_le (by norm_num) (by linarith)
    linarith

/-- Witness for C3 at concrete in-range draw values. -/
theorem C3_health_scores_in_range_witness :
    (0 ≤ database_health_score 50 0 0 ∧ database_health_score 50 0 0 ≤ 100) ∧
    (0 ≤ storage_performance_score 100 0 0 ∧
      storage_performance_score 100 0 0 ≤ 100) ∧
    (0 ≤ network_health_score 10 (1/100) 0 ∧
      network_health_score 10 (1/100) 0 ≤ 100) ∧
    (0 ≤ system_health_score 50 50 50 ∧ system_health_score 50 50 50 ≤ 100) ∧
    (0 ≤ cluster_health_score 90 ∧ cluster_health_score 90 ≤ 100) :=
  C3_health_scores_in_range 50 0 0 100 0 0 10 (1/100) 0 90 50 50 50
    (by norm_num) (by norm_num) (by norm_num) (by norm_num) (by norm_num)
    (by norm_num) (by norm_num) (by norm_num)

end Scores

namespace DatabaseSimulator

/-- C6 fails on the code: the source accumulates `total_time` across ALL
query types and divides that running total by the current type's count, so
`<type>_avg_time_ms` is not the mean of that type's queries (the code's own
comment says "Per-query-type metrics").  At the concrete draw stream `sC6`
the select type runs 6 queries of 10 ms (their own mean is 10) and the
insert type runs 1 query of 10 ms, so insert's own mean — its accumulated
time `(qpInner sC6 1 14 0 0).1 = 10` divided by its count 1 — is 10, yet the
emitted `insert_avg_time_ms` is `(60 + 10) / 1 = 70`. -/
theorem C6_avg_time_uses_cross_type_total :
    getD (simulate_query_performance sC6 0).1 "insert_avg_time_ms" 0 = 70 ∧
    (qpInner sC6 1 14 0 0).1 / ((max 1 1 : ℤ) : ℚ) = 10 := by
  constructor
  · norm_num [simulate_query_performance, qpOuter, qpInner, qpSpec, sC6, segVals,
      pyInt, getD, Int.tdiv]
    simp
  · norm_num [qpInner, sC6, segVals]

end DatabaseSimulator

namespace DatabaseSimulator

theorem qpInner_idx (s : R) (n : ℕ) : ∀ (i : ℕ) (t : ℚ) (sl : ℕ),
    (qpInner s n i t sl).2.2 = i + 2 * n := by
  induction n with
  | zero => intro i t sl; rfl
  | succ n ih =>
    intro i t sl
    rw [qpInner, ih]
    omega

theorem qpInner_congr (s₁ s₂ : R) (n : ℕ) : ∀ (i : ℕ) (t : ℚ) (sl : ℕ),
    (∀ j, i ≤ j → j < i + 2 * n → s₁ j = s₂ j) →
    qpInner s₁ n i t sl = qpInner s₂ n i t sl := by
  induction n with
  | zero => intro i t sl _; rfl
  | succ n ih =>
    intro i t sl h
    have e0 : s₁ i = s₂ i := h i (le_refl i) (by omega)
    have e1 : s₁ (i + 1) = s₂ (i + 1) := h (i + 1) (by omega) (by omega)
    rw [qpInner, qpInner, e0, e1]
    exact ih (i + 2) _ _ (fun j hj1 hj2 => h j (by omega) (by omega))

theorem qpOuter_idx_le (s : R) (spec : List (String × ℚ × ℚ × ℚ)) :
    ∀ (totQ : ℤ) (totT : ℚ) (totS : ℤ) (i : ℕ),
      i ≤ (qpOuter s spec totQ totT totS i).idx := by
  induction spec with
  | nil => intro totQ totT totS i; exact le_refl i
  | cons hd rest ih =>
    intro totQ totT totS i
    obtain ⟨nm, w, mn, mx⟩ := hd
    refine le_trans ?_ (ih (totQ + pyInt (s i * w))
      (totT + (qpInner s (pyInt (s i * w)).toNat (i + 1) 0 0).1)
      (totS + ((qpInner s (pyInt (s i * w)).toNat (i + 1) 0 0).2.1 : ℤ))
      ((qpInner s (pyInt (s i * w)).toNat (i + 1) 0 0).2.2))
    rw [qpInner_idx]
    omega

theorem qpOuter_congr (s₁ s₂ : R) (spec : List (String × ℚ × ℚ × ℚ)) :
    ∀ (totQ : ℤ) (totT : ℚ) (totS : ℤ) (i : ℕ),
      (∀ j, i ≤ j → j < (qpOuter s₁ spec totQ totT totS i).idx → s₁ j = s₂ j) →
      qpOuter s₁ spec totQ totT totS i = qpOuter s₂ spec totQ totT totS i := by
  induction spec with
  | nil => intro _ _ _ _ _; rfl
  | cons hd rest ih =>
    intro totQ totT totS i h
    obtain ⟨nm, w, mn, mx⟩ := hd
    have hinner : (qpInner s₁ (pyInt (s₁ i * w)).toNat (i + 1) 0 0).2.2
        = (i + 1) + 2 * (pyInt (s₁ i * w)).toNat := qpInner_idx s₁ _ _ _ _
    have hidx : (qpOuter s₁ ((nm, w, mn, mx) :: rest) totQ totT totS i).idx
        = (qpOuter s₁ rest (totQ + pyInt (s₁ i * w))
            (totT + (qpInner s₁ (pyInt (s₁ i * w)).toNat (i + 1) 0 0).1)
            (totS + ((qpInner s₁ (pyInt (s₁ i * w)).toNat (i + 1) 0 0).2.1 : ℤ))
            ((qpInner s₁ (pyInt (s₁ i * w)).toNat (i + 1) 0 0).2.2)).idx := rfl
    have hmono := qpOuter_idx_le s₁ rest (totQ + pyInt (s₁ i * w))
      (totT + (qpInner s₁ (pyInt (s₁ i * w)).toNat (i + 1) 0 0).1)
      (totS + ((qpInner s₁ (pyInt (s₁ i * w)).toNat (i + 1) 0 0).2.1 : ℤ))
      ((qpInner s₁ (pyInt (s₁ i * w)).toNat (i + 1) 0 0).2.2)
    rw [hinner] at hidx hmono
    have e0 : s₁ i = s₂ i := h i (le_refl i) (by omega)
    have hq : qpInner s₁ (pyInt (s₁ i * w)).toNat (i + 1) 0 0
        = qpInner s₂ (pyInt (s₁ i * w)).toNat (i + 1) 0 0 :=
      qpInner_congr s₁ s₂ _ _ _ _ (fun j hj1 hj2 => h j (by omega) (by omega))
    have hrest : qpOuter s₁ rest (totQ + pyInt (s₁ i * w))
        (totT + (qpInner s₁ (pyInt (s₁ i * w)).toNat (i + 1) 0 0).1)
        (totS + ((qpInner s₁ (pyInt (s₁ i * w)).toNat (i + 1) 0 0).2.1 : ℤ))
        ((qpInner s₁ (pyInt (s₁ i * w)).toNat (i + 1) 0 0).2.2)
        = qpOuter s₂ rest (totQ + pyInt (s₁ i * w))
          (totT + (qpInner s₁ (pyInt (s₁ i * w)).toNat (i + 1) 0 0).1)
          (totS + ((qpInner s₁ (pyInt (s₁ i * w)).toNat (i + 1) 0 0).2.1 : ℤ))
          ((qpInner s₁ (pyInt (s₁ i * w)).toNat (i + 1) 0 0).2.2) := by
      refine ih _ _ _ _ (fun j hj1 hj2 => h j ?_ ?_)
      · rw [qpInner_idx] at hj1
        omega
      · rw [qpInner_idx] at hj2
        omega
    rw [qpOuter, qpOuter, ← e0, ← hq, ← hrest]

end DatabaseSimulator

namespace DatabaseSimulator

theorem sqp_idx_le (s : R) (i : ℕ) :
    i ≤ (simulate_query_performance s i).2 :=
  qpOuter_idx_le s qpSpec 0 0 0 i

theorem sqp_congr (s₁ s₂ : R) (i : ℕ)
    (h : ∀ j, i ≤ j → j < (simulate_query_performance s₁ i).2 → s₁ j = s₂ j) :
    simulate_query_performance s₁ i = simulate_query_performance s₂ i := by
  rw [simulate_query_performance, simulate_query_performance,
    qpOuter_congr s₁ s₂ qpSpec 0 0 0 i h]

theorem scm_idx_ge (s : R) (i : ℕ) (conn : ℚ) :
    i + 3 ≤ (simulate_connection_management s i conn).2.2 := by
  rw [simulate_connection_management]
  split <;> simp

theorem scm_congr (s₁ s₂ : R) (i : ℕ) (conn : ℚ)
    (h : ∀ j, i ≤ j → j < (simulate_connection_management s₁ i conn).2.2 →
      s₁ j = s₂ j) :
    simulate_connection_management s₁ i conn
      = simulate_connection_management s₂ i conn := by
  have hge := scm_idx_ge s₁ i conn
  have e0 : s₁ i = s₂ i := h i (le_refl i) (by omega)
  have e1 : s₁ (i + 1) = s₂ (i + 1) := h (i + 1) (by omega) (by omega)
  by_cases hc : s₁ (i + 1) < 1/50
  · have hc2 : s₂ (i + 1) < 1/50 := by rw [← e1]; exact hc
    have hidx : (simulate_connection_management s₁ i conn).2.2 = i + 4 := by
      simp only [simulate_connection_management, if_pos hc]
    rw [hidx] at h
    have e2 : s₁ (i + 2) = s₂ (i + 2) := h (i + 2) (by omega) (by omega)
    have e3 : s₁ (i + 3) = s₂ (i + 3) := h (i + 3) (by omega) (by omega)
    rw [simulate_connection_management, simulate_connection_management,
      if_pos hc, if_pos hc2, e0, e2, e3]
  · have hc2 : ¬ s₂ (i + 1) < 1/50 := by rw [← e1]; exact hc
    have hidx : (simulate_connection_management s₁ i conn).2.2 = i + 3 := by
      simp only [simulate_connection_management, if_neg hc]
    rw [hidx] at h
    have e2 : s₁ (i + 2) = s₂ (i + 2) := h (i + 2) (by omega) (by omega)
    rw [simulate_connection_management, simulate_connection_management,
      if_neg hc, if_neg hc2, e0, e2]

theorem stm_idx_ge (s : R) (i : ℕ) :
    i + 5 ≤ (simulate_transaction_metrics s i).2 := by
  rw [simulate_transaction_metrics]
  split <;> simp

theorem stm_congr (s₁ s₂ : R) (i : ℕ)
    (h : ∀ j, i ≤ j → j < (simulate_transaction_metrics s₁ i).2 → s₁ j = s₂ j) :
    simulate_transaction_metrics s₁ i = simulate_transaction_metrics s₂ i := by
  have hge := stm_idx_ge s₁ i
  have e0 : s₁ i = s₂ i := h i (le_refl i) (by omega)
  have e1 : s₁ (i + 1) = s₂ (i + 1) := h (i + 1) (by omega) (by omega)
  have e2 : s₁ (i + 2) = s₂ (i + 2) := h (i + 2) (by omega) (by omega)
  have e3 : s₁ (i + 3) = s₂ (i + 3) := h (i + 3) (by omega) (by omega)
  have e4 : s₁ (i + 4) = s₂ (i + 4) := h (i + 4) (by omega) (by omega)
  by_cases hd : s₁ (i + 4) < 1/10
  · have hd2 : s₂ (i + 4) < 1/10 := by rw [← e4]; exact hd
    have hidx : (simulate_transaction_metrics s₁ i).2 = i + 6 := by
      simp only [simulate_transaction_metrics, if_pos hd]
    rw [hidx] at h
    have e5 : s₁ (i + 5) = s₂ (i + 5) := h (i + 5) (by omega) (by omega)
    rw [simulate_transaction_metrics, simulate_transaction_metrics,
      if_pos hd, if_pos hd2, e0, e1, e2, e3, e5]
  · have hd2 : ¬ s₂ (i + 4) < 1/10 := by rw [← e4]; exact hd
    rw [simulate_transaction_metrics, simulate_transaction_metrics,
      if_neg hd, if_neg hd2, e0, e1, e2, e3]

theorem smo_idx_ge (s : R) (i : ℕ) :
    i + 6 ≤ (simulate_maintenance_operations s i).2 := by
  rw [simulate_maintenance_operations]
  split <;> simp

theorem smo_congr (s₁ s₂ : R) (i : ℕ)
    (h : ∀ j, i ≤ j → j < (simulate_maintenance_operations s₁ i).2 → s₁ j = s₂ j) :
    simulate_maintenance_operations s₁ i = simulate_maintenance_operations s₂ i := by
  have hge := smo_idx_ge s₁ i
  have e0 : s₁ i = s₂ i := h i (le_refl i) (by omega)
  by_cases hv : s₁ i < 1/10
  · have hv2 : s₂ i < 1/10 := by rw [← e0]; exact hv
    have hidx : (simulate_maintenance_operations s₁ i).2 = i + 7 := by
      simp only [simulate_maintenance_operations, if_pos hv]
    rw [hidx] at h
    have e1 : s₁ (i + 1) = s₂ (i + 1) := h (i + 1) (by omega) (by omega)
    have e2 : s₁ (i + 2) = s₂ (i + 2) := h (i + 2) (by omega) (by omega)
    have e3 : s₁ (i + 3) = s₂ (i + 3) := h (i + 3) (by omega) (by omega)
    have e4 : s₁ (i + 4) = s₂ (i + 4) := h (i + 4) (by omega) (by omega)
    have e5 : s₁ (i + 5) = s₂ (i + 5) := h (i + 5) (by omega) (by omega)
    have e6 : s₁ (i + 6) = s₂ (i + 6) := h (i + 6) (by omega) (by omega)
    rw [simulate_maintenance_operations, simulate_maintenance_operations,
      if_pos hv, if_pos hv2, e1, e2, e3, e4, e5, e6]
  · have hv2 : ¬ s₂ i < 1/10 := by rw [← e0]; exact hv
    have hidx : (simulate_maintenance_operations s₁ i).2 = i + 6 := by
      simp only [simulate_maintenance_operations, if_neg hv]
    rw [hidx] at h
    have e1 : s₁ (i + 1) = s₂ (i + 1) := h (i + 1) (by omega) (by omega)
    have e2 : s₁ (i + 2) = s₂ (i + 2) := h (i + 2) (by omega) (by omega)
    have e3 : s₁ (i + 3) = s₂ (i + 3) := h (i + 3) (by omega) (by omega)
    have e4 : s₁ (i + 4) = s₂ (i + 4) := h (i + 4) (by omega) (by omega)
    have e5 : s₁ (i + 5) = s₂ (i + 5) := h (i + 5) (by omega) (by omega)
    rw [simulate_maintenance_operations, simulate_maintenance_operations,
      if_neg hv, if_neg hv2, e1, e2, e3, e4, e5]

theorem sec_idx_ge (s : R) (i : ℕ) :
    i + 3 ≤ (simulate_error_conditions s i).2 := by
  rw [simulate_error_conditions]
  split <;> split <;> simp

theorem sec_congr (s₁ s₂ : R) (i : ℕ)
    (h : ∀ j, i ≤ j → j < (simulate_error_conditions s₁ i).2 → s₁ j = s₂ j) :
    simulate_error_conditions s₁ i = simulate_error_conditions s₂ i := by
  have hge := sec_idx_ge s₁ i
  have e0 : s₁ i = s₂ i := h i (le_refl i) (by omega)
  by_cases hq : s₁ i < 1/20
  · have hq2 : s₂ i < 1/20 := by rw [← e0]; exact hq
    by_cases hr : s₁ (i + 3 + 1) < 3/10
    · have hidx : (simulate_error_conditions s₁ i).2 = i + 3 + 3 := by
        simp only [simulate_error_conditions, if_pos hq, if_pos hr]
      rw [hidx] at h
      have e1 : s₁ (i + 1) = s₂ (i + 1) := h (i + 1) (by omega) (by omega)
      have e3 : s₁ (i + 3) = s₂ (i + 3) := h (i + 3) (by omega) (by omega)
      have e4 : s₁ (i + 3 + 1) = s₂ (i + 3 + 1) := h (i + 3 + 1) (by omega) (by omega)
      have e5 : s₁ (i + 3 + 2) = s₂ (i + 3 + 2) := h (i + 3 + 2) (by omega) (by omega)
      have hr2 : s₂ (i + 3 + 1) < 3/10 := by rw [← e4]; exact hr
      rw [simulate_error_conditions, simulate_error_conditions,
        if_pos hq, if_pos hq2, if_pos hr, if_pos hr2]
      simp only [e1, e3, e4, e5]
    · have hidx : (simulate_error_conditions s₁ i).2 = i + 3 + 2 := by
        simp only [simulate_error_conditions, if_pos hq, if_neg hr]
      rw [hidx] at h
      have e1 : s₁ (i + 1) = s₂ (i + 1) := h (i + 1) (by omega) (by omega)
      have e3 : s₁ (i + 3) = s₂ (i + 3) := h (i + 3) (by omega) (by omega)
      have e4 : s₁ (i + 3 + 1) = s₂ (i + 3 + 1) := h (i + 3 + 1) (by omega) (by omega)
      have hr2 : ¬ s₂ (i + 3 + 1) < 3/10 := by rw [← e4]; exact hr
      rw [simulate_error_conditions, simulate_error_conditions,
        if_pos hq, if_pos hq2, if_neg hr, if_neg hr2]
      simp only [e1, e3, e4]
  · have hq2 : ¬ s₂ i < 1/20 := by rw [← e0]; exact hq
    by_cases hr : s₁ (i + 1 + 1) < 3/10
    · have hidx : (simulate_error_conditions s₁ i).2 = i + 1 + 3 := by
        simp only [simulate_error_conditions, if_neg hq, if_pos hr]
      rw [hidx] at h
      have e1 : s₁ (i + 1) = s₂ (i + 1) := h (i + 1) (by omega) (by omega)
      have e2 : s₁ (i + 1 + 1) = s₂ (i + 1 + 1) := h (i + 1 + 1) (by omega) (by omega)
      have e3 : s₁ (i + 1 + 2) = s₂ (i + 1 + 2) := h (i + 1 + 2) (by omega) (by omega)
      have hr2 : s₂ (i + 1 + 1) < 3/10 := by rw [← e2]; exact hr
      rw [simulate_error_conditions, simulate_error_conditions,
        if_neg hq, if_neg hq2, if_pos hr, if_pos hr2]
      simp only [e1, e2, e3]
    · have hidx : (simulate_error_conditions s₁ i).2 = i + 1 + 2 := by
        simp only [simulate_error_conditions, if_neg hq, if_neg hr]
      rw [hidx] at h
      have e1 : s₁ (i + 1) = s₂ (i + 1) := h (i + 1) (by omega) (by omega)
      have e2 : s₁ (i + 1 + 1) = s₂ (i + 1 + 1) := h (i + 1 + 1) (by omega) (by omega)
      have hr2 : ¬ s₂ (i + 1 + 1) < 3/10 := by rw [← e2]; exact hr
      rw [simulate_error_conditions, simulate_error_conditions,
        if_neg hq, if_neg hq2, if_neg hr, if_neg hr2]
      simp only [e1, e2]

end DatabaseSimulator

namespace DatabaseSimulator

theorem sop_idx_ge (s : R) (i : ℕ) (conn : ℚ) :
    i ≤ (simulate_operations s i conn).2.2 := by
  simp only [simulate_operations]
  have h1 := sqp_idx_le s i
  have h2 := scm_idx_ge s ((simulate_query_performance s i).2) conn
  have h3 := stm_idx_ge s
    ((simulate_connection_management s (simulate_query_performance s i).2 conn).2.2)
  have h4 := smo_idx_ge s
    ((simulate_transaction_metrics s
      (simulate_connection_management s (simulate_query_performance s i).2
        conn).2.2).2)
  have h5 := sec_idx_ge s
    ((simulate_maintenance_operations s
      (simulate_transaction_metrics s
        (simulate_connection_management s (simulate_query_performance s i).2
          conn).2.2).2).2)
  omega

theorem sop_congr (s₁ s₂ : R) (i : ℕ) (conn : ℚ)
    (h : ∀ j, i ≤ j → j < (simulate_operations s₁ i conn).2.2 → s₁ j = s₂ j) :
    simulate_operations s₁ i conn = simulate_operations s₂ i conn := by
  have hF : (simulate_operations s₁ i conn).2.2
      = (simulate_error_conditions s₁
          ((simulate_maintenance_operations s₁
            (simulate_transaction_metrics s₁
              (simulate_connection_management s₁
                (simulate_query_performance s₁ i).2 conn).2.2).2).2)).2 := rfl
  rw [hF] at h
  have m1 := sqp_idx_le s₁ i
  have m2 := scm_idx_ge s₁ ((simulate_query_performance s₁ i).2) conn
  have m3 := stm_idx_ge s₁
    ((simulate_connection_management s₁ (simulate_query_performance s₁ i).2
      conn).2.2)
  have m4 := smo_idx_ge s₁
    ((simulate_transaction_metrics s₁
      (simulate_connection_management s₁ (simulate_query_performance s₁ i).2
        conn).2.2).2)
  have m5 := sec_idx_ge s₁
    ((simulate_maintenance_operations s₁
      (simulate_transaction_metrics s₁
        (simulate_connection_management s₁ (simulate_query_performance s₁ i).2
          conn).2.2).2).2)
  have hq : simulate_query_performance s₁ i = simulate_query_performance s₂ i :=
    sqp_congr s₁ s₂ i (fun j hj1 hj2 => h j hj1 (by omega))
  have hc : simulate_connection_management s₁ (simulate_query_performance s₁ i).2
        conn
      = simulate_connection_management s₂ (simulate_query_performance s₁ i).2
        conn :=
    scm_congr s₁ s₂ _ conn (fun j hj1 hj2 => h j (by omega) (by omega))
  have ht : simulate_transaction_metrics s₁
        (simulate_connection_management s₁ (simulate_query_performance s₁ i).2
          conn).2.2
      = simulate_transaction_metrics s₂
        (simulate_connection_management s₁ (simulate_query_performance s₁ i).2
          conn).2.2 :=
    stm_congr s₁ s₂ _ (fun j hj1 hj2 => h j (by omega) (by omega))
  have hm : simulate_maintenance_operations s₁
        (simulate_transaction_metrics s₁
          (simulate_connection_management s₁ (simulate_query_performance s₁ i).2
            conn).2.2).2
      = simulate_maintenance_operations s₂
        (simulate_transaction_metrics s₁
          (simulate_connection_management s₁ (simulate_query_performance s₁ i).2
            conn).2.2).2 :=
    smo_congr s₁ s₂ _ (fun j hj1 hj2 => h j (by omega) (by omega))
  have he : simulate_error_conditions s₁
        (simulate_maintenance_operations s₁
          (simulate_transaction_metrics s₁
            (simulate_connection_management s₁
              (simulate_query_performance s₁ i).2 conn).2.2).2).2
      = simulate_error_conditions s₂
        (simulate_maintenance_operations s₁
          (simulate_transaction_metrics s₁
            (simulate_connection_management s₁
              (simulate_query_performance s₁ i).2 conn).2.2).2).2 :=
    sec_congr s₁ s₂ _ (fun j hj1 hj2 => h j (by omega) (by omega))
  rw [simulate_operations, simulate_operations, ← hq, ← hc, ← ht, ← hm, ← he]

/-- C9 amended: providers take no injectable random source (they read the
process-global `random` stream), but a provider's construction-plus-first-
cycle behaviour is a deterministic function of the random values at the
positions it consumes: two runs of `DatabaseSimulator.__init__` followed by
`simulate_operations` whose streams agree on every consumed position yield
identical first-cycle batches (and gauge and consumed count). -/
theorem C9_stream_prefix_determinism (s₁ s₂ : R)
    (h : ∀ j, j < (firstRun s₁).2.2 → s₁ j = s₂ j) :
    firstRun s₁ = firstRun s₂ := by
  have hb : (firstRun s₁).2.2 = (simulate_operations s₁ 1 (s₁ 0)).2.2 := rfl
  rw [hb] at h
  have hge := sop_idx_ge s₁ 1 (s₁ 0)
  have h0 : s₁ 0 = s₂ 0 := h 0 (by omega)
  rw [firstRun, firstRun, ← h0]
  exact sop_congr s₁ s₂ 1 (s₁ 0) (fun j hj1 hj2 => h j hj2)

end DatabaseSimulator

namespace DatabaseSimulator

set_option maxRecDepth 8000
set_option maxHeartbeats 4000000

/-- C9 is false on the code: no simulator accepts an injectable random
source — `DatabaseSimulator.__init__` takes only `config`, and every draw
goes to the process-global `random` module.  Two instances constructed in
the same process therefore consume successive, disjoint segments of the one
global stream, and their first-cycle batches differ even though both were
built from the same configuration and the same (global) source: on the
concrete stream `sCex`, whose construction draws are 5 and 9 and whose
produce-phase draw values repeat identically for both instances, instance 1
reports `active_connections = 5` while instance 2 reports 9. -/
theorem C9_counterexample :
    getD (twoInstanceFirstBatches sCex).1 "active_connections" 0 = 5 ∧
    getD (twoInstanceFirstBatches sCex).2 "active_connections" 0 = 9 ∧
    (twoInstanceFirstBatches sCex).1 ≠ (twoInstanceFirstBatches sCex).2 := by
  have h1 : getD (twoInstanceFirstBatches sCex).1 "active_connections" 0 = 5 := by
    norm_num [twoInstanceFirstBatches, simulate_operations,
      simulate_query_performance, qpOuter, qpInner, qpSpec,
      simulate_connection_management, connStep, connection_pool_size,
      simulate_transaction_metrics, simulate_maintenance_operations,
      simulate_error_conditions, Scores.database_health_score, getD, sCex,
      segVals, pyInt, Int.tdiv]
    simp
  have h2 : getD (twoInstanceFirstBatches sCex).2 "active_connections" 0 = 9 := by
    norm_num [twoInstanceFirstBatches, simulate_operations,
      simulate_query_performance, qpOuter, qpInner, qpSpec,
      simulate_connection_management, connStep, connection_pool_size,
      simulate_transaction_metrics, simulate_maintenance_operations,
      simulate_error_conditions, Scores.database_health_score, getD, sCex,
      segVals, pyInt, Int.tdiv]
    simp
  refine ⟨h1, h2, fun heq => ?_⟩
  rw [heq, h2] at h1
  norm_num at h1

end DatabaseSimulator

namespace DatabaseSimulator

set_option maxRecDepth 8000
set_option maxHeartbeats 4000000

/-- Witness for C9 amended: `sC9w` agrees with `sCex` on the 38 consumed
positions and returns 999 on every later one; construction plus first
produce nevertheless coincide. -/
theorem C9_stream_prefix_determinism_witness : firstRun sCex = firstRun sC9w := by
  have hidx : (firstRun sCex).2.2 = 38 := by
    norm_num [firstRun, simulate_operations, simulate_query_performance,
      qpOuter, qpInner, qpSpec, simulate_connection_management, connStep,
      connection_pool_size, simulate_transaction_metrics,
      simulate_maintenance_operations, simulate_error_conditions,
      Scores.database_health_score, getD, sCex, segVals, pyInt, Int.tdiv]
  refine C9_stream_prefix_determinism sCex sC9w (fun j hj => ?_)
  rw [hidx] at hj
  simp [sC9w, hj]

end DatabaseSimulator
